import Mathlib

/-!
Verification of the EchoPath client session bridge.

This file embeds, in Lean, the token-bridging logic of the EchoPath client:

* `authenticateWithAPI` and the axios response interceptor from the
  `AuthProvider` component (src/unnamed/part_001, lines 32-61 and 95-121);
* the inline token-acquisition block (`ensureToken` in the spec's
  vocabulary) of `handleTranslate` in
  src/client/src/components/TextTranslation.jsx, lines 49-76;
* the header construction of `handleTranslate` (voice) and
  `playTranslatedAudio` (TTS) in the voice-translation component
  (src/unnamed/part_002, lines 157-181 and 250-282).

The embedding is a state machine: `BridgeState` carries the React `user`
state, the `apiToken` React state, the `api_token` localStorage slot and
the axios default `Authorization` header.  External collaborators (the
identity provider's `getIdToken` and the `POST /api/auth/firebase` token
exchange) are an oracle `Env`; `none` models a thrown/network/non-2xx
failure.  Resource-endpoint responses for one logical request are a list
of `HttpResp` consumed in order by the interceptor pipeline, and every
outgoing network call is recorded as an `Event` so that claims counting
network calls can be stated exactly.

One fidelity point matters throughout: the interceptor's 401 guard
(part_001 line 98) reads the `user` binding captured by the
`useEffect(..., [])` closure, not the live React state.  The pipeline
`runRequest` therefore takes that captured value as a parameter, and
`runRequestProgram` is the program's instance, with the captured value
fixed to `none` — the value the registering render holds — so the
refresh/retry/logOut branch is unreachable in the program.
-/

/-- Response of one resource-endpoint network attempt: HTTP 2xx, HTTP 401,
or a transport-level failure (axios error with no `response` field). -/
inductive HttpResp where
  | ok
  | unauthorized
  | netErr
deriving DecidableEq, Repr

/-- Result surfaced to the caller of a logical resource call:
`success` (the axios promise resolves), `authFailed` (rejected with an
error whose `response.status` is 401), `netFailed` (rejected with an
error carrying no response), `fuelOut` (the model's step budget ran out;
the real code would still be looping). -/
inductive Outcome where
  | success
  | authFailed
  | netFailed
  | fuelOut
deriving DecidableEq, Repr

/-- One observable network call made by the bridge. `resourceCall` records
the `Authorization` header value attached (or `none` when the header is
omitted); `assertionReq` is a `getIdToken` call to the identity provider,
recording whether provider-side renewal was forced (`getIdToken(true)`);
`exchangeCall` is a `POST /api/auth/firebase` token-exchange call. -/
inductive Event where
  | resourceCall : Option String → Event
  | assertionReq : Bool → Event
  | exchangeCall : Event
deriving DecidableEq, Repr

/-- Client-side session state: the Firebase `user` React state (modelled
as an optional principal id), the `apiToken` React state, the
`api_token` localStorage entry, and the axios default
`Authorization` header (`axios.defaults.headers.common`). -/
structure BridgeState where
  signedInUser : Option String
  memToken : Option String
  storedToken : Option String
  defaultAuth : Option String
deriving DecidableEq, Repr

/-- External collaborators: `idToken b` is `user.getIdToken(b)` (the
argument is the force-refresh flag; `none` models a throw), and
`exchange a` is the token-exchange endpoint applied to assertion `a`
(`none` models a network error or non-2xx response). -/
structure Env where
  idToken : Bool → Option String
  exchange : String → Option String

/-- The `Authorization` header value for a bearer token. -/
def bearer (t : String) : String := "Bearer " ++ t

/-- Sign-out handling as performed by the `onAuthStateChange` listener in
part_001 (lines 86-89) together with `authenticateWithAPI(null)`
(lines 50-56): `setUser(null)`, `setApiToken(null)`,
`localStorage.removeItem('api_token')`, and deletion of the default
`Authorization` header.  This is the spec's `clearSession()`. -/
def clearSession (st : BridgeState) : BridgeState :=
  { st with signedInUser := none, memToken := none, storedToken := none,
            defaultAuth := none }

/-- `authenticateWithAPI` from part_001 lines 32-61.  With a signed-in
user: obtain an identity assertion via `getIdToken()` (not forced),
POST it to the token exchange, and on success store the returned
`access_token` in the React state, localStorage, and the axios default
header, returning it.  With no user: clear token state and return
`null`.  Any thrown error is caught and `null` is returned with the
state unchanged.  Returns the token, the new state, and the network
calls made. -/
def authenticateWithAPI (env : Env) (st : BridgeState) (firebaseUser : Option String) :
    Option String × BridgeState × List Event :=
  match firebaseUser with
  | none =>
      (none, { st with memToken := none, storedToken := none, defaultAuth := none }, [])
  | some _ =>
      match env.idToken false with
      | none => (none, st, [.assertionReq false])
      | some idt =>
          match env.exchange idt with
          | none => (none, st, [.assertionReq false, .exchangeCall])
          | some tok =>
              (some tok,
               { st with memToken := some tok, storedToken := some tok,
                         defaultAuth := some (bearer tok) },
               [.assertionReq false, .exchangeCall])

/-- The token-acquisition block of `handleTranslate` in
TextTranslation.jsx lines 49-65 (the spec's `ensureToken`): read
`localStorage.getItem('api_token')`; if absent and `auth.currentUser`
is set, request an assertion (not forced) and exchange it, storing the
returned token in localStorage and the axios default header; exchange
errors are caught and swallowed.  Returns the token (or `none`), the
new state, and the network calls made. -/
def ensureToken (env : Env) (st : BridgeState) :
    Option String × BridgeState × List Event :=
  match st.storedToken with
  | some t => (some t, st, [])
  | none =>
      match st.signedInUser with
      | none => (none, st, [])
      | some _ =>
          match env.idToken false with
          | none => (none, st, [.assertionReq false])
          | some idt =>
              match env.exchange idt with
              | none => (none, st, [.assertionReq false, .exchangeCall])
              | some tok =>
                  (some tok,
                   { st with storedToken := some tok, defaultAuth := some (bearer tok) },
                   [.assertionReq false, .exchangeCall])

/-- The rest of `handleTranslate` in TextTranslation.jsx lines 67-76:
after the `ensureToken` block, re-read `localStorage.getItem('api_token')`
and POST to `/api/translate/text` with an `Authorization: Bearer <token>`
header when the stored token exists, and no config (hence no
`Authorization` header) otherwise.  Returns the new state and the
network calls made, the resource call recording its header. -/
def handleTranslate (env : Env) (st : BridgeState) : BridgeState × List Event :=
  match ensureToken env st with
  | (_, st2, evs) =>
      (st2, evs ++ [.resourceCall (st2.storedToken.map bearer)])

/-- The axios response-interceptor pipeline of part_001 lines 95-121
applied to one logical resource request.  `hdr` is the `Authorization`
header of the current attempt (initially the axios default), `resps`
the resource endpoint's successive answers.

The interceptor's 401 branch is guarded by
`error.response?.status === 401 && user` (line 98), where `user` is not
read from live state: the handler is a closure created once, when the
`useEffect` registers it, and it holds whatever value the `user`
binding had on that render.  `capturedUser` is that closure-captured
value.  When it is non-null, the handler requests a forced-fresh
assertion (`user.getIdToken(true)`), exchanges it, stores the new token
(React state, localStorage, default header), rewrites
`error.config.headers['Authorization']` and re-issues the request via
`axios.request(error.config)` — which passes through the same
interceptor (same captured value) again; the code installs no retry
guard.  If the refresh step throws, `logOut()` runs (clearing the
session through the auth-state listener) and the original error is
re-rejected.  Non-401 errors, and 401s when the captured `user` is
null, are rejected unchanged.  `fuel` bounds the model's recursion. -/
def runRequest (env : Env) (capturedUser : Option String) :
    Nat → BridgeState → Option String → List HttpResp →
    Outcome × BridgeState × List Event
  | 0, st, _, _ => (.fuelOut, st, [])
  | _ + 1, st, hdr, [] => (.netFailed, st, [.resourceCall hdr])
  | fuel + 1, st, hdr, r :: rest =>
      match r with
      | .ok => (.success, st, [.resourceCall hdr])
      | .netErr => (.netFailed, st, [.resourceCall hdr])
      | .unauthorized =>
          match capturedUser with
          | none => (.authFailed, st, [.resourceCall hdr])
          | some _ =>
              match env.idToken true with
              | none =>
                  (.authFailed, clearSession st, [.resourceCall hdr, .assertionReq true])
              | some idt =>
                  match env.exchange idt with
                  | none =>
                      (.authFailed, clearSession st,
                       [.resourceCall hdr, .assertionReq true, .exchangeCall])
                  | some tok =>
                      let res := runRequest env capturedUser fuel
                          { st with memToken := some tok, storedToken := some tok,
                                    defaultAuth := some (bearer tok) }
                          (some (bearer tok)) rest
                      (res.1, res.2.1,
                       .resourceCall hdr :: .assertionReq true :: .exchangeCall :: res.2.2)

/-- The interceptor pipeline as the program actually executes it.  The
interceptor is registered exactly once, inside the
`useEffect(() => ..., [])` of part_001 lines 75-132: the empty
dependency array makes the effect run only after the initial render,
whose `user` state is still the initial `useState(null)` value, and the
handler is never re-registered, so its closure permanently holds
`user = null` (later `setUser` calls create new bindings for new
renders; they never mutate the captured one).  Every 401 therefore
falls through to `Promise.reject(error)`; the refresh, retry and
`logOut` code of lines 100-117 is unreachable. -/
def runRequestProgram (env : Env) :
    Nat → BridgeState → Option String → List HttpResp →
    Outcome × BridgeState × List Event :=
  runRequest env none

/-- Number of resource-endpoint network calls in a trace. -/
def countResource : List Event → Nat
  | [] => 0
  | .resourceCall _ :: evs => countResource evs + 1
  | _ :: evs => countResource evs

/-- Number of token-exchange network calls in a trace. -/
def countExchange : List Event → Nat
  | [] => 0
  | .exchangeCall :: evs => countExchange evs + 1
  | _ :: evs => countExchange evs

/-- Header list of the `POST /api/tts/synthesize` request built by
`playTranslatedAudio` in part_002 (lines 268-275): the `Authorization`
entry is always present, with value `Bearer <token>` when a token
exists and the empty string otherwise. -/
def synthesizeHeaders (token : Option String) : List (String × String) :=
  [("Content-Type", "application/json"),
   ("Authorization", match token with | some t => bearer t | none => "")]

/-- Headers of the `POST /api/translate/voice` request built by the
voice `handleTranslate` in part_002 (lines 177-181):
`token ? \x7b Authorization: Bearer token \x7d : undefined`, i.e. the header
object is omitted entirely when there is no token. -/
def voiceTranslateHeaders (token : Option String) : Option (List (String × String)) :=
  match token with
  | some t => some [("Authorization", bearer t)]
  | none => none

/-- The single-current-token consistency relation: the axios default
`Authorization` header is exactly the bearer form of the one stored
token. -/
def tokenConsistent (st : BridgeState) : Prop :=
  st.defaultAuth = st.storedToken.map bearer

instance (st : BridgeState) : Decidable (tokenConsistent st) := by
  unfold tokenConsistent; infer_instance

/-! ### Concrete fixtures used by witnesses and counterexamples -/

/-- A session with user `u` signed in and token `tok1` cached everywhere. -/
def stTok1 : BridgeState :=
  { signedInUser := some "u", memToken := some "tok1",
    storedToken := some "tok1", defaultAuth := some (bearer "tok1") }

/-- A session with nobody signed in and nothing cached. -/
def stSignedOut : BridgeState :=
  { signedInUser := none, memToken := none, storedToken := none, defaultAuth := none }

/-- Environment whose identity provider returns assertion `a2` and whose
token exchange returns `tok2`. -/
def envTok2 : Env :=
  { idToken := fun _ => some "a2", exchange := fun _ => some "tok2" }

/-- Environment whose token exchange always fails. -/
def envExchangeDown : Env :=
  { idToken := fun _ => some "a2", exchange := fun _ => none }

/-! ### Claims -/

/-- Claim C3. Whenever a bearer token is cached under the `api_token`
storage key, `ensureToken` returns that token with an empty network
trace, and a second invocation on the resulting state again performs
zero network calls and returns the same token. -/
theorem ensureToken_cached_idempotent (env env2 : Env) (st : BridgeState) (t : String)
    (h : st.storedToken = some t) :
    ensureToken env st = (some t, st, []) ∧
    ensureToken env2 (ensureToken env st).2.1 = (some t, st, []) := by
  have h1 : ensureToken env st = (some t, st, []) := by
    simp [ensureToken, h]
  refine ⟨h1, ?_⟩
  rw [h1]
  simp [ensureToken, h]

theorem ensureToken_cached_idempotent_witness :
    stTok1.storedToken = some "tok1" ∧
    ensureToken envTok2 stTok1 = (some "tok1", stTok1, []) :=
  ⟨rfl, (ensureToken_cached_idempotent envTok2 envTok2 stTok1 "tok1" rfl).1⟩

/-- Claim C8. With no signed-in principal and no cached token,
`ensureToken` returns `none` with an empty network trace (in particular
no token-exchange call), and the subsequent `/api/translate/text`
request of `handleTranslate` is dispatched without an `Authorization`
header. -/
theorem ensureToken_no_principal_no_exchange (env : Env) (st : BridgeState)
    (h1 : st.storedToken = none) (h2 : st.signedInUser = none) :
    ensureToken env st = (none, st, []) ∧
    handleTranslate env st = (st, [.resourceCall none]) := by
  have he : ensureToken env st = (none, st, []) := by
    simp [ensureToken, h1, h2]
  exact ⟨he, by simp [handleTranslate, he, h1]⟩

theorem ensureToken_no_principal_no_exchange_witness :
    stSignedOut.storedToken = none ∧ stSignedOut.signedInUser = none ∧
    ensureToken envTok2 stSignedOut = (none, stSignedOut, []) :=
  ⟨rfl, rfl,
   (ensureToken_no_principal_no_exchange envTok2 stSignedOut rfl rfl).1⟩

/-- Claim C7. Whenever token acquisition fails — missing principal,
assertion fetch throwing, or the token exchange failing (network error
or non-2xx) — `ensureToken` returns `none` (it is a total function, so
nothing is raised to the caller), the stored token stays absent, and
the dependent `/api/translate/text` request is still dispatched,
without an `Authorization` header. -/
theorem ensureToken_failure_absent (env : Env) (st : BridgeState)
    (h0 : st.storedToken = none)
    (hfail : st.signedInUser = none ∨ env.idToken false = none ∨
             ∀ s, env.exchange s = none) :
    (ensureToken env st).1 = none ∧
    (ensureToken env st).2.1.storedToken = none ∧
    (handleTranslate env st).2 = (ensureToken env st).2.2 ++ [.resourceCall none] := by
  have key : (ensureToken env st).1 = none ∧ (ensureToken env st).2.1 = st := by
    rcases hfail with h | h | h
    · simp [ensureToken, h0, h]
    · cases hu : st.signedInUser <;> simp [ensureToken, h0, h, hu]
    · cases hu : st.signedInUser with
      | none => simp [ensureToken, h0, hu]
      | some u =>
          cases hi : env.idToken false <;> simp [ensureToken, h0, hu, hi, h]
  refine ⟨key.1, by rw [key.2]; exact h0, ?_⟩
  simp [handleTranslate]
  rw [key.2]
  simp [h0]

theorem ensureToken_failure_absent_witness :
    stSignedOut.storedToken = none ∧
    (ensureToken envExchangeDown stSignedOut).1 = none :=
  ⟨rfl,
   (ensureToken_failure_absent envExchangeDown stSignedOut rfl (Or.inl rfl)).1⟩

/-- Helper: the interceptor pipeline preserves the single-current-token
consistency between the `api_token` storage slot and the axios default
`Authorization` header, on every branch (success, network error,
refresh, refresh failure with sign-out). -/
lemma runRequest_preserves_tokenConsistent (env : Env) (cu : Option String) :
    ∀ (fuel : Nat) (st : BridgeState) (hdr : Option String) (resps : List HttpResp),
      tokenConsistent st → tokenConsistent (runRequest env cu fuel st hdr resps).2.1 := by
  intro fuel
  induction fuel with
  | zero => intro st hdr resps h; simpa [runRequest] using h
  | succ n ih =>
      intro st hdr resps h
      cases resps with
      | nil => simpa [runRequest] using h
      | cons r rest =>
          cases r with
          | ok => simpa [runRequest] using h
          | netErr => simpa [runRequest] using h
          | unauthorized =>
              cases cu with
              | none => simpa [runRequest] using h
              | some u =>
                  cases hi : env.idToken true with
                  | none => simp [runRequest, hi, clearSession, tokenConsistent]
                  | some idt =>
                      cases he : env.exchange idt with
                      | none => simp [runRequest, hi, he, clearSession, tokenConsistent]
                      | some tok =>
                          have h2 : tokenConsistent
                              { st with memToken := some tok, storedToken := some tok,
                                        defaultAuth := some (bearer tok) } := by
                            simp [tokenConsistent]
                          have hc := ih
                            { st with memToken := some tok, storedToken := some tok,
                                      defaultAuth := some (bearer tok) }
                            (some (bearer tok)) rest h2
                          simpa [runRequest, hi, he] using hc

/-- Helper: the first event of every attempt of the interceptor pipeline
is the resource call carrying exactly the header it was dispatched
with. -/
lemma runRequest_first_attempt_header (env : Env) (cu : Option String) (fuel : Nat)
    (st : BridgeState) (hdr : Option String) (resps : List HttpResp) :
    ((runRequest env cu (fuel + 1) st hdr resps).2.2).head? = some (.resourceCall hdr) := by
  cases resps with
  | nil => simp [runRequest]
  | cons r rest =>
      cases r with
      | ok => simp [runRequest]
      | netErr => simp [runRequest]
      | unauthorized =>
          cases cu with
          | none => simp [runRequest]
          | some u =>
              cases hi : env.idToken true with
              | none => simp [runRequest, hi]
              | some idt =>
                  cases he : env.exchange idt with
                  | none => simp [runRequest, hi, he]
                  | some tok => simp [runRequest, hi, he]

/-- Claim C6. At most one bearer token is current at any time: the
consistency `defaultAuth = storedToken.map bearer` (one header, one
storage slot) is preserved by `authenticateWithAPI`, by `ensureToken`,
by `clearSession` and by the whole interceptor pipeline (for every
closure-captured `user` value, so in particular for the program's
permanently null one); a request dispatched with the default header
attaches exactly the single stored token; and every successful
acquisition through `authenticateWithAPI` overwrites that same storage
slot and default header with the new token, regardless of what was
there before. -/
theorem current_token_invariant (env : Env) (cu : Option String) (st : BridgeState)
    (fu : Option String) (fuel : Nat) (resps : List HttpResp)
    (h : tokenConsistent st) :
    tokenConsistent (authenticateWithAPI env st fu).2.1 ∧
    tokenConsistent (ensureToken env st).2.1 ∧
    tokenConsistent (clearSession st) ∧
    tokenConsistent (runRequest env cu fuel st st.defaultAuth resps).2.1 ∧
    ((runRequest env cu (fuel + 1) st st.defaultAuth resps).2.2).head? =
      some (.resourceCall (st.storedToken.map bearer)) ∧
    (∀ u idt tok, env.idToken false = some idt → env.exchange idt = some tok →
      (authenticateWithAPI env st (some u)).2.1.storedToken = some tok ∧
      (authenticateWithAPI env st (some u)).2.1.defaultAuth = some (bearer tok)) := by
  refine ⟨?_, ?_, ?_, ?_, ?_, ?_⟩
  · cases fu with
    | none => simp [authenticateWithAPI, tokenConsistent]
    | some u =>
        cases hi : env.idToken false with
        | none => simpa [authenticateWithAPI, hi] using h
        | some idt =>
            cases he : env.exchange idt with
            | none => simpa [authenticateWithAPI, hi, he] using h
            | some tok => simp [authenticateWithAPI, hi, he, tokenConsistent]
  · cases hst : st.storedToken with
    | some t => simpa [ensureToken, hst] using h
    | none =>
        cases hu : st.signedInUser with
        | none => simpa [ensureToken, hst, hu] using h
        | some u =>
            cases hi : env.idToken false with
            | none => simpa [ensureToken, hst, hu, hi] using h
            | some idt =>
                cases he : env.exchange idt with
                | none => simpa [ensureToken, hst, hu, hi, he] using h
                | some tok => simp [ensureToken, hst, hu, hi, he, tokenConsistent]
  · simp [clearSession, tokenConsistent]
  · exact runRequest_preserves_tokenConsistent env cu fuel st st.defaultAuth resps h
  · rw [runRequest_first_attempt_header env cu fuel st st.defaultAuth resps, h]
  · intro u idt tok hi he
    simp [authenticateWithAPI, hi, he]

theorem current_token_invariant_witness :
    tokenConsistent stTok1 ∧
    tokenConsistent
      (runRequest envTok2 (some "u") 1 stTok1 stTok1.defaultAuth [HttpResp.ok]).2.1 :=
  ⟨rfl,
   (current_token_invariant envTok2 (some "u") stTok1 (some "u") 1 [HttpResp.ok]
      rfl).2.2.2.1⟩

/-- Claim C10. The `/api/tts/synthesize` request of `playTranslatedAudio`
always carries an `Authorization` header — with the empty-string value
when no token exists — while the `/api/translate/voice` request of the
voice `handleTranslate` omits its headers object (and hence the
`Authorization` header) entirely when no token exists. -/
theorem tts_header_always_present (token : Option String) :
    (synthesizeHeaders token).map Prod.fst = ["Content-Type", "Authorization"] ∧
    synthesizeHeaders none =
      [("Content-Type", "application/json"), ("Authorization", "")] ∧
    voiceTranslateHeaders none = none ∧
    (∀ t, voiceTranslateHeaders (some t) = some [("Authorization", bearer t)]) := by
  refine ⟨?_, rfl, rfl, fun t => rfl⟩
  cases token <;> rfl

/-- Claim C5, counterexample. It is not true that after `clearSession()`
every subsequent resource request carries no `Authorization` header:
the `/api/tts/synthesize` request built in the cleared state still
carries an `Authorization` header (with the empty-string value). -/
theorem clearSession_tts_still_sends_auth_header :
    "Authorization" ∈ (synthesizeHeaders (clearSession stTok1).storedToken).map Prod.fst := by
  simp [synthesizeHeaders, clearSession, stTok1]

/-- Claim C5, amended. After `clearSession()` the cached token is gone from
memory and from the `api_token` storage slot, the default
`Authorization` header is deleted, and subsequent requests carry no
bearer token: the text-translation request is dispatched with no
`Authorization` header at all, the voice-translation request omits its
headers object, and the `/api/tts/synthesize` request alone still
carries an `Authorization` header, with the empty-string value. -/
theorem clearSession_clean (env : Env) (st : BridgeState) :
    (clearSession st).memToken = none ∧
    (clearSession st).storedToken = none ∧
    (clearSession st).defaultAuth = none ∧
    handleTranslate env (clearSession st) = (clearSession st, [.resourceCall none]) ∧
    voiceTranslateHeaders (clearSession st).storedToken = none ∧
    synthesizeHeaders (clearSession st).storedToken =
      [("Content-Type", "application/json"), ("Authorization", "")] := by
  refine ⟨rfl, rfl, rfl, ?_, rfl, rfl⟩
  simp [handleTranslate, ensureToken, clearSession]

/-- Claim C1. The program's interceptor never retries and never loops:
the 401 branch's guard closes over the initial null `user`, so for
every environment, state, header and response sequence the pipeline
performs exactly one resource call and zero token-exchange calls and
terminates with a definite outcome.  The claim's bound — at most one
retry, never more than two resource calls and one exchange, no
unbounded refresh loop — holds a fortiori; its antecedent (a
post-refresh retry that returns 401) can never be instantiated, since
a second attempt never occurs. -/
theorem interceptor_bounded_single_attempt (env : Env) (fuel : Nat) (st : BridgeState)
    (hdr : Option String) (resps : List HttpResp) :
    countResource (runRequestProgram env (fuel + 1) st hdr resps).2.2 = 1 ∧
    countExchange (runRequestProgram env (fuel + 1) st hdr resps).2.2 = 0 ∧
    (runRequestProgram env (fuel + 1) st hdr resps).1 ≠ Outcome.fuelOut := by
  cases resps with
  | nil => simp [runRequestProgram, runRequest, countResource, countExchange]
  | cons r rest =>
      cases r <;> simp [runRequestProgram, runRequest, countResource, countExchange]

/-- Claim C2. Evaluation at the claim's refresh scenario: user `u` is
signed in, `tok1` is cached, and the identity provider and token
exchange stand ready to deliver assertion `a2` and token `tok2` — yet
on the 401 the program's interceptor makes no assertion request, no
exchange call, no cache update and no retry: it rejects the 401 with
the session state unchanged, because the interceptor's closure-captured
`user` is permanently null.  The claimed forced-fresh refresh-and-retry
never happens. -/
theorem interceptor_never_refreshes :
    runRequestProgram envTok2 2 stTok1 (some (bearer "tok1")) [.unauthorized, .ok] =
      (.authFailed, stTok1, [.resourceCall (some (bearer "tok1"))]) ∧
    stTok1.signedInUser = some "u" ∧
    envTok2.idToken true = some "a2" ∧
    envTok2.exchange "a2" = some "tok2" :=
  ⟨rfl, rfl, rfl, rfl⟩

/-- Claim C4. The program's interceptor propagates every terminal
failure to the caller, distinguishably and after exactly one resource
call: a 401 is rejected as an authorization failure, a transport-level
error — whose missing `response` field fails the `status === 401`
test — as a network failure, and the two results are distinct
constructors.  No further retry is ever attempted (the trace is the
single attempt), and the claim's retried-401 and failed-refresh cases
never arise, since the interceptor performs no refresh at all. -/
theorem failure_propagation_distinguishable (env : Env) (fuel : Nat) (st : BridgeState)
    (hdr : Option String) (rest : List HttpResp) :
    runRequestProgram env (fuel + 1) st hdr (.unauthorized :: rest) =
      (.authFailed, st, [.resourceCall hdr]) ∧
    runRequestProgram env (fuel + 1) st hdr (.netErr :: rest) =
      (.netFailed, st, [.resourceCall hdr]) ∧
    Outcome.authFailed ≠ Outcome.netFailed :=
  ⟨by simp [runRequestProgram, runRequest],
   by simp [runRequestProgram, runRequest],
   by decide⟩

/-- Claim C9, counterexample. In the very scenario the claim addresses —
principal signed in, token cached, 401 response, a token exchange that
would fail — the program's interceptor leaves the session state
entirely unchanged and never reaches the refresh step (the trace is
the single resource call, with no assertion request), so it does not
sign the principal out: after the call the token is still cached and
the state differs from the signed-out one. -/
theorem refresh_failure_no_signout :
    runRequestProgram envExchangeDown 2 stTok1 (some (bearer "tok1")) [.unauthorized] =
      (.authFailed, stTok1, [.resourceCall (some (bearer "tok1"))]) ∧
    stTok1.storedToken = some "tok1" ∧
    stTok1 ≠ clearSession stTok1 :=
  ⟨rfl, rfl, by decide⟩

/-- Claim C9, amended. The 401-triggered refresh step never runs in the
program (the interceptor's guard closes over the initial null `user`),
so it can never fail and `logOut` is never invoked from the
interceptor: on every 401, in any environment — including ones where
the assertion fetch or the exchange would throw — the bridge rejects
with the original 401 error while the memory token, the `api_token`
storage slot, the default `Authorization` header and the signed-in
principal all stay unchanged, and the trace contains no assertion
request and no exchange call. -/
theorem interceptor_401_leaves_session_unchanged (env : Env) (fuel : Nat)
    (st : BridgeState) (hdr : Option String) (rest : List HttpResp) :
    (runRequestProgram env (fuel + 1) st hdr (.unauthorized :: rest)).1 =
      Outcome.authFailed ∧
    (runRequestProgram env (fuel + 1) st hdr (.unauthorized :: rest)).2.1.memToken =
      st.memToken ∧
    (runRequestProgram env (fuel + 1) st hdr (.unauthorized :: rest)).2.1.storedToken =
      st.storedToken ∧
    (runRequestProgram env (fuel + 1) st hdr (.unauthorized :: rest)).2.1.defaultAuth =
      st.defaultAuth ∧
    (runRequestProgram env (fuel + 1) st hdr (.unauthorized :: rest)).2.1.signedInUser =
      st.signedInUser ∧
    countExchange (runRequestProgram env (fuel + 1) st hdr (.unauthorized :: rest)).2.2
      = 0 ∧
    (∀ b, Event.assertionReq b ∉
      (runRequestProgram env (fuel + 1) st hdr (.unauthorized :: rest)).2.2) := by
  simp [runRequestProgram, runRequest, countExchange]
